import Mathlib

/-!
Shallow embedding of the bearer-token authentication core of the service
(`app/middleware/auth.py`), together with theorems settling the spec's claims
about it.

Modelling conventions:
* Python values reachable in token claims are modelled by `PyVal`
  (strings, integers, lists); an absent dictionary entry is `Option.none`.
* The three `lru_cache(maxsize=1)` slots of the module
  (`_get_openid_config_url`, `_get_jwks_uri`, `_get_jwks`) become the three
  fields of `CacheState`.  `lru_cache` does not memoise raised exceptions,
  so the error branches leave the slot empty.
* The network environment (the HTTP responses the identity provider would
  return, and the current time used by the expiry check) is a `World`
  record held fixed across calls; every executed `requests.get` counts as
  one fetch, and each stateful operation returns
  `result × CacheState × fetchCount`.
* The `jwt` library calls are embedded by their documented behaviour:
  a raw token string either fails compact-JWT parsing (`RawToken.malformed`,
  e.g. the empty string) or yields a `Token` carrying the header fields
  (`kid`, `alg`), the payload claim dictionary and an abstract record of the
  key material its signature was produced with (`signedWith`); signature
  verification succeeds exactly when the resolved key's material matches.
  `jwt.decode` validates, in PyJWT's order: allowed algorithms, signature,
  then the claims iat, nbf, exp, iss, aud.
* String primitives used by the code (`startswith`, `split`, `strip`,
  `rstrip("/")`) are defined over the character list of the string so that
  they compute by kernel reduction.
-/

namespace AuthCore

/-- Decidable equality on `Except`, used to evaluate outcomes on concrete
inputs. -/
instance {ε α : Type} [DecidableEq ε] [DecidableEq α] :
    DecidableEq (Except ε α) := fun x y =>
  match x, y with
  | Except.ok a, Except.ok b =>
    if h : a = b then Decidable.isTrue (by rw [h])
    else Decidable.isFalse (by intro he; cases he; exact h rfl)
  | Except.error a, Except.error b =>
    if h : a = b then Decidable.isTrue (by rw [h])
    else Decidable.isFalse (by intro he; cases he; exact h rfl)
  | Except.ok _, Except.error _ => Decidable.isFalse (by intro he; cases he)
  | Except.error _, Except.ok _ => Decidable.isFalse (by intro he; cases he)

/-- A Python value as it can occur in a decoded token payload.  List values
are modelled at the granularity the code inspects them: lists of strings
(role lists, scope splits, audience lists). -/
inductive PyVal where
  | str : String → PyVal
  | int : Int → PyVal
  | list : List String → PyVal
deriving Repr, DecidableEq

/-- A decoded token payload: a dictionary from claim name to value. -/
abbrev Claims := List (String × PyVal)

/-- `d.get(k)`: first binding of `k`, `None` (here `Option.none`) if absent. -/
def claimsGet (d : Claims) (k : String) : Option PyVal :=
  (d.find? (fun p => p.1 == k)).map (fun p => p.2)

/-- Python truthiness of a `PyVal`. -/
def truthyV : PyVal → Bool
  | PyVal.str s => !(s == "")
  | PyVal.int n => !(n == 0)
  | PyVal.list xs => !xs.isEmpty

/-- Python truthiness of a possibly-absent value (`None` is falsy). -/
def truthy (o : Option PyVal) : Bool := (o.map truthyV).getD false

/-- Python `a or b` on possibly-`None` values: `a` if truthy, else `b`. -/
def pyOr (a b : Option PyVal) : Option PyVal := if truthy a then a else b

/-- `pre.startswith` check, via the character lists. -/
def pyStartsWith (s pre : String) : Bool := pre.data.isPrefixOf s.data

/-- `str.strip()`: drop whitespace from both ends. -/
def stripList (l : List Char) : List Char :=
  ((l.dropWhile Char.isWhitespace).reverse.dropWhile Char.isWhitespace).reverse

/-- `str.strip()` on strings. -/
def pyStrip (s : String) : String := String.mk (stripList s.data)

/-- Helper for `str.split()`: accumulate the current word (reversed). -/
def wordsAux : List Char → List Char → List String
  | [], acc => if acc.isEmpty then [] else [String.mk acc.reverse]
  | c :: cs, acc =>
    if Char.isWhitespace c then
      if acc.isEmpty then wordsAux cs []
      else String.mk acc.reverse :: wordsAux cs []
    else wordsAux cs (c :: acc)

/-- Python `str.split()` with no argument: split on runs of whitespace,
discarding empty pieces. -/
def pySplitWs (s : String) : List String := wordsAux s.data []

/-- Python `s.rstrip("/")` on the character list: remove all trailing `'/'`. -/
def rstripSlashList (l : List Char) : List Char :=
  (l.reverse.dropWhile (fun c => c == '/')).reverse

/-- Python `s.rstrip("/")`. -/
def rstripSlash (s : String) : String := String.mk (rstripSlashList s.data)

/-- The configuration consumed by the auth core (`get_settings()`):
`AZURE_AD_AUTHORITY` and `AZURE_AD_AUDIENCE`.  The remaining settings are
never read by this module. -/
structure AuthSettings where
  authority : String
  audience : String
deriving Repr, DecidableEq

/-- One published key of the provider's key set (`jwks["keys"][i]`): its
optional `kid` field and the abstract public-key material that
`RSAAlgorithm.from_jwk` would reconstruct from it. -/
structure Jwk where
  kid : Option String
  material : String
deriving Repr, DecidableEq

/-- The fixed network environment of a run: the discovery endpoint's HTTP
status and the `jwks_uri` field of its body (`none` = field absent), the
key-set endpoint's HTTP status and the `keys` array of its body, and the
current time used by the expiry check. -/
structure World where
  discStatus : Nat
  discJwksUri : Option String
  jwksStatus : Nat
  jwksKeys : List Jwk
  now : Int
deriving Repr, DecidableEq

/-- The three module-level `lru_cache(maxsize=1)` slots.  `jwksUri`'s inner
`Option` is the cached Python return value, which can itself be `None` when
the discovery document omits `jwks_uri`. -/
structure CacheState where
  configUrl : Option String
  jwksUri : Option (Option String)
  jwks : Option (List Jwk)
deriving Repr, DecidableEq

/-- The cold cache at process start. -/
def CacheState.empty : CacheState := ⟨none, none, none⟩

/-- Exceptions raised by the `jwt` library (`jwt.PyJWTError` subclasses). -/
inductive JwtErr where
  | decodeError
  | expiredSignature
  | invalidAudience
  | invalidIssuer
  | invalidSignature
  | invalidAlgorithm
  | missingRequiredClaim
  | invalidIssuedAt
  | immatureSignature
deriving Repr, DecidableEq

/-- Exceptions escaping the auth core: `HTTPException(401, detail)`,
`RuntimeError` from the fetch helpers, miscellaneous Python errors
(`requests` errors, `AttributeError`) and uncaught `jwt` errors. -/
inductive Err where
  | http : String → Err
  | runtime : String → Err
  | py : String → Err
  | jwtE : JwtErr → Err
deriving Repr, DecidableEq

/-- `_get_openid_config_url`: derive the discovery-document URL from the
authority with trailing slashes removed.  Pure; cached in `configUrl`. -/
def openidConfigUrlOf (authority : String) : String :=
  rstripSlash authority ++ "/v2.0/.well-known/openid-configuration"

/-- The issuer value `get_current_user` passes to `jwt.decode`. -/
def expectedIssuer (authority : String) : String :=
  rstripSlash authority ++ "/v2.0"

/-- `_get_openid_config_url()` with its `lru_cache` slot. -/
def get_openid_config_url (s : AuthSettings) (st : CacheState) :
    String × CacheState :=
  match st.configUrl with
  | some u => (u, st)
  | none =>
    let u := openidConfigUrlOf s.authority
    (u, { st with configUrl := some u })

/-- `_get_jwks_uri()`: fetch the discovery document; on a non-200 status
raise `RuntimeError("Failed to load OpenID configuration")`; otherwise
return (and cache) `resp.json().get("jwks_uri")` — which is Python `None`
when the field is absent. -/
def get_jwks_uri (s : AuthSettings) (w : World) (st : CacheState) :
    Except Err (Option String) × CacheState × Nat :=
  match st.jwksUri with
  | some v => (Except.ok v, st, 0)
  | none =>
    let p := get_openid_config_url s st
    if w.discStatus = 200 then
      (Except.ok w.discJwksUri, { p.2 with jwksUri := some w.discJwksUri }, 1)
    else
      (Except.error (Err.runtime "Failed to load OpenID configuration"), p.2, 1)

/-- `_get_jwks()`: fetch the key set from the cached `jwks_uri`; a non-200
status raises `RuntimeError("Failed to load JWKS")`.  When the cached
`jwks_uri` is Python `None`, `requests.get(None)` raises a `requests`
error before any network round trip.  The body's `keys` array is the
`World.jwksKeys` list. -/
def get_jwks (s : AuthSettings) (w : World) (st : CacheState) :
    Except Err (List Jwk) × CacheState × Nat :=
  match st.jwks with
  | some ks => (Except.ok ks, st, 0)
  | none =>
    match get_jwks_uri s w st with
    | (Except.error e, st1, n) => (Except.error e, st1, n)
    | (Except.ok none, st1, n) =>
      (Except.error (Err.py "requests: Invalid URL None"), st1, n)
    | (Except.ok (some _), st1, n) =>
      if w.jwksStatus = 200 then
        (Except.ok w.jwksKeys, { st1 with jwks := some w.jwksKeys }, n + 1)
      else
        (Except.error (Err.runtime "Failed to load JWKS"), st1, n + 1)

/-- The header and signature data the `jwt` library exposes for a
well-formed compact JWT: the `kid` and `alg` header fields, the payload
claims, and an abstract record of the key material the signature was
produced with. -/
structure Token where
  kid : Option String
  alg : String
  signedWith : String
  claims : Claims
deriving Repr, DecidableEq

/-- The result of compact-JWT parsing of a raw token string:
`malformed` when `jwt.get_unverified_header` raises `DecodeError`
(in particular on the empty string), else the parsed token. -/
inductive RawToken where
  | malformed : RawToken
  | jwt : Token → RawToken
deriving Repr, DecidableEq

/-- The `kid` lookup loop over `jwks.get("keys", [])`. -/
def findKey (kid : String) (ks : List Jwk) : Option Jwk :=
  ks.find? (fun k => k.kid == some kid)

/-- `_get_signing_key(token)`: parse the unverified header, reject a missing
or empty `kid` with `HTTPException("Invalid token header")`, look the `kid`
up in the cached key set, on a miss clear the `_get_jwks` cache slot and
fetch once more, and fail with `HTTPException("Signing key not found")` if
the `kid` is still absent. -/
def get_signing_key (s : AuthSettings) (w : World) (st : CacheState)
    (rt : RawToken) : Except Err Jwk × CacheState × Nat :=
  match rt with
  | RawToken.malformed => (Except.error (Err.jwtE JwtErr.decodeError), st, 0)
  | RawToken.jwt t =>
    match t.kid with
    | none => (Except.error (Err.http "Invalid token header"), st, 0)
    | some kid =>
      if kid = "" then (Except.error (Err.http "Invalid token header"), st, 0)
      else
        match get_jwks s w st with
        | (Except.error e, st1, n) => (Except.error e, st1, n)
        | (Except.ok ks, st1, n) =>
          match findKey kid ks with
          | some k => (Except.ok k, st1, n)
          | none =>
            let st2 : CacheState := { st1 with jwks := none }
            match get_jwks s w st2 with
            | (Except.error e, st3, m) => (Except.error e, st3, n + m)
            | (Except.ok ks2, st3, m) =>
              match findKey kid ks2 with
              | some k => (Except.ok k, st3, n + m)
              | none =>
                (Except.error (Err.http "Signing key not found"), st3, n + m)

/-- `_validate_iat`: an `iat` claim, when present, must convert to an
integer; no temporal comparison is performed. -/
def validateIat (c : Claims) : Except JwtErr Unit :=
  match claimsGet c "iat" with
  | none => Except.ok ()
  | some (PyVal.int _) => Except.ok ()
  | some _ => Except.error JwtErr.invalidIssuedAt

/-- `_validate_nbf`: a future not-before claim is rejected. -/
def validateNbf (c : Claims) (now : Int) : Except JwtErr Unit :=
  match claimsGet c "nbf" with
  | none => Except.ok ()
  | some (PyVal.int n) =>
    if now < n then Except.error JwtErr.immatureSignature else Except.ok ()
  | some _ => Except.error JwtErr.decodeError

/-- `_validate_exp`: an `exp` claim at or before the current time raises
`ExpiredSignatureError`. -/
def validateExp (c : Claims) (now : Int) : Except JwtErr Unit :=
  match claimsGet c "exp" with
  | none => Except.ok ()
  | some (PyVal.int e) =>
    if e ≤ now then Except.error JwtErr.expiredSignature else Except.ok ()
  | some _ => Except.error JwtErr.decodeError

/-- `_validate_iss`: with an expected issuer configured, a missing `iss`
claim raises `MissingRequiredClaimError`; a mismatched one raises
`InvalidIssuerError`. -/
def validateIss (c : Claims) (iss : String) : Except JwtErr Unit :=
  match claimsGet c "iss" with
  | none => Except.error JwtErr.missingRequiredClaim
  | some v =>
    if v = PyVal.str iss then Except.ok ()
    else Except.error JwtErr.invalidIssuer

/-- `_validate_aud`: with an audience configured, a missing `aud` claim
raises `MissingRequiredClaimError`; the claim matches either as an equal
string or as a list containing the expected audience. -/
def validateAud (c : Claims) (aud : String) : Except JwtErr Unit :=
  match claimsGet c "aud" with
  | none => Except.error JwtErr.missingRequiredClaim
  | some (PyVal.str a) =>
    if a = aud then Except.ok () else Except.error JwtErr.invalidAudience
  | some (PyVal.list xs) =>
    if aud ∈ xs then Except.ok () else Except.error JwtErr.invalidAudience
  | some _ => Except.error JwtErr.invalidAudience

/-- `jwt.decode(token, key, algorithms=["RS256"], audience=aud, issuer=iss)`
with all verifications enabled: reject a header algorithm outside the
allowed list, verify the signature against the resolved key, then validate
the claims in PyJWT's order (iat, nbf, exp, iss, aud), returning the
payload on success. -/
def jwtDecode (t : Token) (key : Jwk) (aud iss : String) (now : Int) :
    Except JwtErr Claims :=
  if t.alg ≠ "RS256" then Except.error JwtErr.invalidAlgorithm
  else if t.signedWith ≠ key.material then Except.error JwtErr.invalidSignature
  else
    match validateIat t.claims with
    | Except.error e => Except.error e
    | Except.ok _ =>
      match validateNbf t.claims now with
      | Except.error e => Except.error e
      | Except.ok _ =>
        match validateExp t.claims now with
        | Except.error e => Except.error e
        | Except.ok _ =>
          match validateIss t.claims iss with
          | Except.error e => Except.error e
          | Except.ok _ =>
            match validateAud t.claims aud with
            | Except.error e => Except.error e
            | Except.ok _ => Except.ok t.claims

/-- The display-identity fallback chain:
`decoded.get("preferred_username") or decoded.get("upn") or
decoded.get("email") or decoded.get("oid")`. -/
def preferredUsername (d : Claims) : Option PyVal :=
  pyOr (claimsGet d "preferred_username")
    (pyOr (claimsGet d "upn") (pyOr (claimsGet d "email") (claimsGet d "oid")))

/-- `.split()` as applied to a claim value: defined on strings, an
`AttributeError` on any other type. -/
def pyStrSplit : PyVal → Except Err PyVal
  | PyVal.str s => Except.ok (PyVal.list (pySplitWs s))
  | _ => Except.error (Err.py "AttributeError: object has no attribute split")

/-- The role-derivation expression of `get_current_user`, with Python's
operator precedence:
`(decoded.get("roles") or decoded.get("scp", "").split()) if
decoded.get("scp") else []`.  The conditional test is evaluated first; `or`
short-circuits, so the split (and its possible `AttributeError`) is reached
only when the `roles` value is absent or falsy. -/
def rolesExpr (d : Claims) : Except Err PyVal :=
  if truthy (claimsGet d "scp") then
    match claimsGet d "roles" with
    | some v =>
      if truthyV v then Except.ok v
      else pyStrSplit ((claimsGet d "scp").getD (PyVal.str ""))
    | none => pyStrSplit ((claimsGet d "scp").getD (PyVal.str ""))
  else Except.ok (PyVal.list [])

/-- The user dictionary returned on successful validation. -/
structure UserDict where
  preferred_username : Option PyVal
  roles : PyVal
  claims : Claims
  token_exp : Option PyVal
deriving Repr, DecidableEq

/-- The `except` clauses of `get_current_user`: map each `jwt` error to the
corresponding `HTTPException` detail, with `"Invalid token"` as the
catch-all for every other `PyJWTError`. -/
def mapJwtErr : JwtErr → Err
  | JwtErr.expiredSignature => Err.http "Token expired"
  | JwtErr.invalidAudience => Err.http "Invalid audience"
  | JwtErr.invalidIssuer => Err.http "Invalid issuer"
  | _ => Err.http "Invalid token"

/-- Apply the `except jwt.PyJWTError` handlers to an escaping exception:
`jwt` errors are translated, everything else (HTTPException, RuntimeError,
requests errors, AttributeError) propagates unchanged. -/
def catchJwt : Err → Err
  | Err.jwtE e => mapJwtErr e
  | e => e

/-- The credential-extraction steps of `get_current_user`:
`None` unless the header starts with `"Bearer "`; otherwise
`auth_header.split(" ", 1)[1].strip()`.  Since `"Bearer"` contains no
space, the first space of a conforming header is at index 6 and the
post-split remainder is the substring from index 7. -/
def extractToken (authHeader : String) : Option String :=
  if pyStartsWith authHeader "Bearer " then
    some (pyStrip (String.mk (authHeader.data.drop 7)))
  else none

/-- `get_current_user(request)`: the full validation pipeline.  `authHeader`
is the raw `Authorization` header value (absent header = `""`), and `body`
is the compact-JWT parse of the extracted token string.  Returns the user
dictionary or the escaping exception, the updated cache slots, and the
number of network fetches performed. -/
def get_current_user (s : AuthSettings) (w : World) (st : CacheState)
    (authHeader : String) (body : RawToken) :
    Except Err UserDict × CacheState × Nat :=
  if pyStartsWith authHeader "Bearer " then
    match get_signing_key s w st body with
    | (Except.error e, st1, n) => (Except.error (catchJwt e), st1, n)
    | (Except.ok key, st1, n) =>
      match body with
      | RawToken.malformed =>
        (Except.error (catchJwt (Err.jwtE JwtErr.decodeError)), st1, n)
      | RawToken.jwt t =>
        match jwtDecode t key s.audience (expectedIssuer s.authority) w.now with
        | Except.error je => (Except.error (mapJwtErr je), st1, n)
        | Except.ok decoded =>
          match rolesExpr decoded with
          | Except.error e => (Except.error e, st1, n)
          | Except.ok roles =>
            (Except.ok { preferred_username := preferredUsername decoded,
                         roles := roles,
                         claims := decoded,
                         token_exp := claimsGet decoded "exp" }, st1, n)
  else (Except.error (Err.http "Missing bearer token"), st, 0)

/-! ### Helper lemmas -/

/-- String concatenation appends the character lists. -/
theorem string_data_append (a b : String) : (a ++ b).data = a.data ++ b.data := by
  cases a
  cases b
  rfl

/-- A list is a Boolean prefix of itself followed by anything. -/
theorem isPrefixOf_append_self (l r : List Char) :
    l.isPrefixOf (l ++ r) = true := by
  induction l with
  | nil => simp [List.isPrefixOf]
  | cons c cs ih => simp [List.isPrefixOf, ih]

/-- A header formed by appending anything to the prefix passes the
`startswith` check. -/
theorem pyStartsWith_append (pre rest : String) :
    pyStartsWith (pre ++ rest) pre = true := by
  unfold pyStartsWith
  rw [string_data_append]
  exact isPrefixOf_append_self _ _

/-- `dropWhile` consumes a list all of whose elements satisfy the test. -/
theorem dropWhile_eq_nil_of_all {α : Type} (p : α → Bool) (l : List α)
    (h : ∀ c ∈ l, p c = true) : l.dropWhile p = [] :=
  List.dropWhile_eq_nil_iff.mpr h

/-- `dropWhile` skips over a leading block all of whose elements satisfy the
test. -/
theorem dropWhile_append_of_all {α : Type} (p : α → Bool) (l r : List α)
    (h : ∀ c ∈ l, p c = true) :
    (l ++ r).dropWhile p = r.dropWhile p := by
  induction l with
  | nil => rfl
  | cons c cs ih =>
    have hc : p c = true := h c (by simp)
    rw [List.cons_append, List.dropWhile_cons_of_pos hc]
    exact ih (fun x hx => h x (by simp [hx]))

/-- Extracting from `"Bearer "` followed by only whitespace yields the empty
token string. -/
theorem extractToken_bearer_whitespace (ws : String)
    (h : ∀ c ∈ ws.data, Char.isWhitespace c = true) :
    extractToken ("Bearer " ++ ws) = some "" := by
  unfold extractToken
  rw [pyStartsWith_append]
  have hdata : ("Bearer " ++ ws).data = "Bearer ".data ++ ws.data :=
    string_data_append _ _
  have h7 : ("Bearer ".data).length = 7 := rfl
  have hdrop : ("Bearer " ++ ws).data.drop 7 = ws.data := by
    rw [hdata, ← h7, List.drop_left]
  rw [if_pos rfl, hdrop]
  have hws : ws.data.dropWhile Char.isWhitespace = [] :=
    dropWhile_eq_nil_of_all _ _ h
  simp [pyStrip, stripList, hws]

/-! ### Claims -/

/-- C2: the spec says the role list equals the explicit `roles` claim when
present, else the space-split `scp` claim, else `[]`, and that a malformed
scope claim yields `[]` rather than a type error.  The code's expression
`decoded.get("roles") or decoded.get("scp", "").split() if
decoded.get("scp") else []` parses, by Python operator precedence, as
`(roles or split) if scp else []`: a token carrying a `roles` claim but no
`scp` claim yields `[]` instead of its roles, and a non-string `scp` claim
raises an `AttributeError` instead of yielding `[]`. -/
theorem C2_roles_precedence_bug :
    rolesExpr [("roles", PyVal.list ["admin"])] = Except.ok (PyVal.list []) ∧
    rolesExpr [("scp", PyVal.int 5)] =
      Except.error (Err.py "AttributeError: object has no attribute split") := by
  decide

/-- C6: the spec says the discovery resolver fails with
`DiscoveryUnavailable` when the discovery document omits `jwks_uri` and
that no key-set endpoint URL is cached.  Evaluated at a discovery response
with status 200 and no `jwks_uri` field, `_get_jwks_uri` instead returns
Python `None` successfully and caches it, and the subsequent `_get_jwks`
call fails with an untyped `requests` error, not the typed discovery
failure. -/
theorem C6_missing_jwks_uri_cached_as_none :
    get_jwks_uri ⟨"https://a", "aud"⟩ ⟨200, none, 200, [], 0⟩ CacheState.empty =
      (Except.ok none,
       ⟨some (openidConfigUrlOf "https://a"), some none, none⟩, 1) ∧
    (get_jwks ⟨"https://a", "aud"⟩ ⟨200, none, 200, [], 0⟩
        ⟨some (openidConfigUrlOf "https://a"), some none, none⟩).1 =
      Except.error (Err.py "requests: Invalid URL None") := by
  decide

/-- C3 counterexample: the claim says a header of exactly `"Bearer "`
followed by nothing carries an empty raw token and is rejected with
`MissingCredential` (`"Missing bearer token"`).  On that concrete request
the extracted token is indeed empty, but the code rejects with
`"Invalid token"` (the `DecodeError` catch-all), not `"Missing bearer
token"`. -/
theorem C3_empty_token_not_missing_credential :
    extractToken "Bearer " = some "" ∧
    (get_current_user ⟨"https://a", "aud"⟩ ⟨200, some "u", 200, [], 0⟩
        CacheState.empty "Bearer " RawToken.malformed).1 =
      Except.error (Err.http "Invalid token") ∧
    (get_current_user ⟨"https://a", "aud"⟩ ⟨200, some "u", 200, [], 0⟩
        CacheState.empty "Bearer " RawToken.malformed).1 ≠
      Except.error (Err.http "Missing bearer token") := by
  decide

/-- C3 amended: a request whose Authorization header does not start with
`"Bearer "` (absent, empty, or wrong scheme) is rejected with
`MissingCredential` and nothing else runs; a header of `"Bearer "` followed
by only whitespace extracts to the empty token string, which then fails
compact-JWT parsing and is rejected with `MalformedToken`
(`"Invalid token"`), not `MissingCredential`. -/
theorem C3_missing_credential_amended
    (s : AuthSettings) (w : World) (st : CacheState)
    (h1 : String) (body : RawToken) (ws : String) (h2 : String)
    (hdr1 : pyStartsWith h1 "Bearer " = false)
    (hws : ∀ c ∈ ws.data, Char.isWhitespace c = true)
    (hdr2 : pyStartsWith h2 "Bearer " = true) :
    get_current_user s w st h1 body =
      (Except.error (Err.http "Missing bearer token"), st, 0) ∧
    extractToken ("Bearer " ++ ws) = some "" ∧
    (get_current_user s w st h2 RawToken.malformed).1 =
      Except.error (Err.http "Invalid token") := by
  refine ⟨?_, extractToken_bearer_whitespace ws hws, ?_⟩
  · simp [get_current_user, hdr1]
  · simp [get_current_user, hdr2, get_signing_key, catchJwt, mapJwtErr]

/-- C3 witness: the amended statement instantiated at the wrong-scheme
header `"Basic abc123"`, the whitespace tail `" "` and the conforming
header `"Bearer x"`. -/
theorem C3_missing_credential_amended_witness :
    get_current_user ⟨"https://a", "aud"⟩ ⟨200, some "u", 200, [], 0⟩
        CacheState.empty "Basic abc123" RawToken.malformed =
      (Except.error (Err.http "Missing bearer token"), CacheState.empty, 0) ∧
    extractToken ("Bearer " ++ " ") = some "" ∧
    (get_current_user ⟨"https://a", "aud"⟩ ⟨200, some "u", 200, [], 0⟩
        CacheState.empty "Bearer x" RawToken.malformed).1 =
      Except.error (Err.http "Invalid token") :=
  C3_missing_credential_amended ⟨"https://a", "aud"⟩ ⟨200, some "u", 200, [], 0⟩
    CacheState.empty "Basic abc123" RawToken.malformed " " "Bearer x"
    (by decide) (by decide) (by decide)

/-- C1: a token whose declared `kid` is absent from the currently cached key
set makes the signing-key resolver clear the cache and fetch the key set
exactly one more time within that validation (fetch count 1, the cache slot
ending at the freshly fetched set), and if the `kid` is still absent from
the fetched set the resolution fails with `SigningKeyNotFound`
(`"Signing key not found"`). -/
theorem C1_refresh_once_on_miss
    (s : AuthSettings) (w : World) (st : CacheState) (t : Token)
    (ks : List Jwk) (u : String) (kid : String)
    (hkid : t.kid = some kid) (hne : ¬ kid = "")
    (hjwks : st.jwks = some ks) (huri : st.jwksUri = some (some u))
    (hmiss : findKey kid ks = none) (hstatus : w.jwksStatus = 200) :
    (get_signing_key s w st (RawToken.jwt t)).2.2 = 1 ∧
    (get_signing_key s w st (RawToken.jwt t)).2.1 =
      { st with jwks := some w.jwksKeys } ∧
    (findKey kid w.jwksKeys = none →
      (get_signing_key s w st (RawToken.jwt t)).1 =
        Except.error (Err.http "Signing key not found")) := by
  cases hfind : findKey kid w.jwksKeys with
  | some k =>
    simp [get_signing_key, get_jwks, get_jwks_uri, hkid, hne, hjwks, huri,
      hmiss, hstatus, hfind]
  | none =>
    simp [get_signing_key, get_jwks, get_jwks_uri, hkid, hne, hjwks, huri,
      hmiss, hstatus, hfind]

/-- C1 witness: the refresh-once behaviour evaluated at a concrete cached
empty key set and an empty provider key set. -/
theorem C1_refresh_once_on_miss_witness :
    (get_signing_key ⟨"https://a", "aud"⟩ ⟨200, some "u", 200, [], 0⟩
        ⟨some "c", some (some "u"), some []⟩
        (RawToken.jwt ⟨some "k1", "RS256", "m", []⟩)).2.2 = 1 ∧
    (get_signing_key ⟨"https://a", "aud"⟩ ⟨200, some "u", 200, [], 0⟩
        ⟨some "c", some (some "u"), some []⟩
        (RawToken.jwt ⟨some "k1", "RS256", "m", []⟩)).2.1 =
      { (⟨some "c", some (some "u"), some []⟩ : CacheState) with
        jwks := some (⟨200, some "u", 200, [], 0⟩ : World).jwksKeys } ∧
    (findKey "k1" (⟨200, some "u", 200, [], 0⟩ : World).jwksKeys = none →
      (get_signing_key ⟨"https://a", "aud"⟩ ⟨200, some "u", 200, [], 0⟩
          ⟨some "c", some (some "u"), some []⟩
          (RawToken.jwt ⟨some "k1", "RS256", "m", []⟩)).1 =
        Except.error (Err.http "Signing key not found")) :=
  C1_refresh_once_on_miss ⟨"https://a", "aud"⟩ ⟨200, some "u", 200, [], 0⟩
    ⟨some "c", some (some "u"), some []⟩ ⟨some "k1", "RS256", "m", []⟩
    [] "u" "k1" rfl (by decide) rfl rfl (by decide) rfl

/-- C4: a token whose `exp` claim is at or before the current time is
rejected with `TokenExpired` (`"Token expired"`) whenever its signing key
resolves and its signature and algorithm are valid — with no assumption at
all on its audience or issuer claims, so the expiry check decides before
the audience and issuer checks. -/
theorem C4_expired_before_aud_iss
    (s : AuthSettings) (w : World) (st : CacheState) (h : String) (t : Token)
    (ks : List Jwk) (kid : String) (key : Jwk) (e : Int)
    (hhdr : pyStartsWith h "Bearer " = true)
    (hkid : t.kid = some kid) (hne : ¬ kid = "")
    (hjwks : st.jwks = some ks) (hfind : findKey kid ks = some key)
    (halg : t.alg = "RS256") (hsig : t.signedWith = key.material)
    (hiat : validateIat t.claims = Except.ok ())
    (hnbf : validateNbf t.claims w.now = Except.ok ())
    (hexp : claimsGet t.claims "exp" = some (PyVal.int e)) (hpast : e ≤ w.now) :
    get_current_user s w st h (RawToken.jwt t) =
      (Except.error (Err.http "Token expired"), st, 0) := by
  simp [get_current_user, hhdr, get_signing_key, hkid, hne, get_jwks, hjwks,
    hfind, jwtDecode, halg, hsig, validateExp, hexp, hiat, hnbf, hpast, mapJwtErr]

/-- C4 witness: an expired token with a mismatched audience and issuer is
still rejected as expired. -/
theorem C4_expired_before_aud_iss_witness :
    get_current_user ⟨"https://a", "aud"⟩ ⟨200, some "u", 200, [⟨some "k1", "mat"⟩], 5⟩
        ⟨some "c", some (some "u"), some [⟨some "k1", "mat"⟩]⟩ "Bearer x"
        (RawToken.jwt ⟨some "k1", "RS256", "mat",
          [("exp", PyVal.int 3), ("aud", PyVal.str "wrong"),
           ("iss", PyVal.str "wrong")]⟩) =
      (Except.error (Err.http "Token expired"),
       ⟨some "c", some (some "u"), some [⟨some "k1", "mat"⟩]⟩, 0) :=
  C4_expired_before_aud_iss ⟨"https://a", "aud"⟩
    ⟨200, some "u", 200, [⟨some "k1", "mat"⟩], 5⟩
    ⟨some "c", some (some "u"), some [⟨some "k1", "mat"⟩]⟩ "Bearer x"
    ⟨some "k1", "RS256", "mat",
      [("exp", PyVal.int 3), ("aud", PyVal.str "wrong"),
       ("iss", PyVal.str "wrong")]⟩
    [⟨some "k1", "mat"⟩] "k1" ⟨some "k1", "mat"⟩ 3
    (by decide) rfl (by decide) rfl (by decide) rfl rfl (by decide) (by decide)
    (by decide) (by decide)

/-- C5 counterexample: the claim says that after a `SigningKeyNotFound`
failure, a subsequent validation with the same `kid` performs no
additional key-set refresh.  On this concrete run the first validation
fails after 3 fetches (discovery, key set, forced key-set refresh), and the
second validation with the same `kid`, from the cache state the first one
left, performs 1 further fetch — not 0: the code refreshes once per
failing validation, with no negative caching. -/
theorem C5_second_failure_fetches_again :
    let s : AuthSettings := ⟨"https://a", "aud"⟩
    let w : World := ⟨200, some "u", 200, [], 0⟩
    let t : Token := ⟨some "k1", "RS256", "m", []⟩
    let r1 := get_signing_key s w CacheState.empty (RawToken.jwt t)
    let r2 := get_signing_key s w r1.2.1 (RawToken.jwt t)
    r1.1 = Except.error (Err.http "Signing key not found") ∧ r1.2.2 = 3 ∧
    r2.1 = Except.error (Err.http "Signing key not found") ∧
    r2.2.2 = 1 ∧ ¬ r2.2.2 = 0 := by
  decide

/-- C5 amended: each failing validation performs its own single forced
key-set refresh: after a validation has failed with `SigningKeyNotFound`,
a subsequent validation of a token with the same identifier performs
exactly one additional key-set fetch (its own forced refresh), and fails
the same way; the refresh is bounded per validation, not globally until an
explicit invalidation. -/
theorem C5_refresh_each_failing_validation
    (s : AuthSettings) (w : World) (st : CacheState) (t : Token)
    (ks : List Jwk) (u : String) (kid : String)
    (hkid : t.kid = some kid) (hne : ¬ kid = "")
    (hjwks : st.jwks = some ks) (huri : st.jwksUri = some (some u))
    (hmiss : findKey kid ks = none) (hmiss2 : findKey kid w.jwksKeys = none)
    (hstatus : w.jwksStatus = 200) :
    (get_signing_key s w st (RawToken.jwt t)).1 =
      Except.error (Err.http "Signing key not found") ∧
    (get_signing_key s w
        (get_signing_key s w st (RawToken.jwt t)).2.1 (RawToken.jwt t)).1 =
      Except.error (Err.http "Signing key not found") ∧
    (get_signing_key s w
        (get_signing_key s w st (RawToken.jwt t)).2.1 (RawToken.jwt t)).2.2 = 1 := by
  have h1 : get_signing_key s w st (RawToken.jwt t) =
      (Except.error (Err.http "Signing key not found"),
       { st with jwks := some w.jwksKeys }, 1) := by
    simp [get_signing_key, get_jwks, get_jwks_uri, hkid, hne, hjwks, huri,
      hmiss, hmiss2, hstatus]
  rw [h1]
  simp [get_signing_key, get_jwks, get_jwks_uri, hkid, hne, huri, hmiss2, hstatus]

/-- C5 witness: the per-validation refresh behaviour at a concrete cached
empty key set. -/
theorem C5_refresh_each_failing_validation_witness :
    (get_signing_key ⟨"https://a", "aud"⟩ ⟨200, some "u", 200, [], 0⟩
        ⟨some "c", some (some "u"), some []⟩
        (RawToken.jwt ⟨some "k1", "RS256", "m", []⟩)).1 =
      Except.error (Err.http "Signing key not found") ∧
    (get_signing_key ⟨"https://a", "aud"⟩ ⟨200, some "u", 200, [], 0⟩
        (get_signing_key ⟨"https://a", "aud"⟩ ⟨200, some "u", 200, [], 0⟩
          ⟨some "c", some (some "u"), some []⟩
          (RawToken.jwt ⟨some "k1", "RS256", "m", []⟩)).2.1
        (RawToken.jwt ⟨some "k1", "RS256", "m", []⟩)).1 =
      Except.error (Err.http "Signing key not found") ∧
    (get_signing_key ⟨"https://a", "aud"⟩ ⟨200, some "u", 200, [], 0⟩
        (get_signing_key ⟨"https://a", "aud"⟩ ⟨200, some "u", 200, [], 0⟩
          ⟨some "c", some (some "u"), some []⟩
          (RawToken.jwt ⟨some "k1", "RS256", "m", []⟩)).2.1
        (RawToken.jwt ⟨some "k1", "RS256", "m", []⟩)).2.2 = 1 :=
  C5_refresh_each_failing_validation ⟨"https://a", "aud"⟩
    ⟨200, some "u", 200, [], 0⟩ ⟨some "c", some (some "u"), some []⟩
    ⟨some "k1", "RS256", "m", []⟩ [] "u" "k1"
    rfl (by decide) rfl rfl (by decide) (by decide) rfl

/-- C7: `jwt.decode` is called with `algorithms=["RS256"]`, so a token whose
header declares `HS256` is rejected with `InvalidAlgorithmError` — mapped to
`"Invalid token"` — before any signature verification against the resolved
public key (no assumption on the token's signature is needed). -/
theorem C7_hs256_rejected
    (s : AuthSettings) (w : World) (st : CacheState) (h : String) (t : Token)
    (ks : List Jwk) (kid : String) (key : Jwk)
    (hhdr : pyStartsWith h "Bearer " = true)
    (hkid : t.kid = some kid) (hne : ¬ kid = "")
    (hjwks : st.jwks = some ks) (hfind : findKey kid ks = some key)
    (halg : t.alg = "HS256") :
    jwtDecode t key s.audience (expectedIssuer s.authority) w.now =
      Except.error JwtErr.invalidAlgorithm ∧
    get_current_user s w st h (RawToken.jwt t) =
      (Except.error (Err.http "Invalid token"), st, 0) := by
  constructor
  · simp [jwtDecode, halg]
  · simp [get_current_user, hhdr, get_signing_key, hkid, hne, get_jwks, hjwks,
      hfind, jwtDecode, halg, mapJwtErr]

/-- C7 witness: an `HS256` token whose MAC was computed from the public key
material is still rejected. -/
theorem C7_hs256_rejected_witness :
    jwtDecode ⟨some "k1", "HS256", "mat", []⟩ ⟨some "k1", "mat"⟩
      "aud" (expectedIssuer "https://a") 0 =
      Except.error JwtErr.invalidAlgorithm ∧
    get_current_user ⟨"https://a", "aud"⟩ ⟨200, some "u", 200, [⟨some "k1", "mat"⟩], 0⟩
        ⟨some "c", some (some "u"), some [⟨some "k1", "mat"⟩]⟩ "Bearer x"
        (RawToken.jwt ⟨some "k1", "HS256", "mat", []⟩) =
      (Except.error (Err.http "Invalid token"),
       ⟨some "c", some (some "u"), some [⟨some "k1", "mat"⟩]⟩, 0) :=
  C7_hs256_rejected ⟨"https://a", "aud"⟩
    ⟨200, some "u", 200, [⟨some "k1", "mat"⟩], 0⟩
    ⟨some "c", some (some "u"), some [⟨some "k1", "mat"⟩]⟩ "Bearer x"
    ⟨some "k1", "HS256", "mat", []⟩ [⟨some "k1", "mat"⟩] "k1" ⟨some "k1", "mat"⟩
    (by decide) rfl (by decide) rfl (by decide) rfl

/-- C8 counterexample: the claim says validating the same valid token twice
from a cold cache triggers at most one network fetch total.  On this
concrete valid token the two calls yield identical claim sets, but the
first call performs 2 fetches (the discovery document and the key set), so
the total across the two calls is 2, not at most 1. -/
theorem C8_two_fetches_from_cold_cache :
    let s : AuthSettings := ⟨"https://a", "aud"⟩
    let t : Token := ⟨some "k1", "RS256", "mat",
      [("exp", PyVal.int 10), ("iss", PyVal.str "https://a/v2.0"),
       ("aud", PyVal.str "aud"), ("preferred_username", PyVal.str "alice"),
       ("scp", PyVal.str "read write")]⟩
    let w : World := ⟨200, some "u", 200, [⟨some "k1", "mat"⟩], 0⟩
    let r1 := get_current_user s w CacheState.empty "Bearer x" (RawToken.jwt t)
    let r2 := get_current_user s w r1.2.1 "Bearer x" (RawToken.jwt t)
    r1.1 = r2.1 ∧
    r1.1 = Except.ok ⟨some (PyVal.str "alice"), PyVal.list ["read", "write"],
      [("exp", PyVal.int 10), ("iss", PyVal.str "https://a/v2.0"),
       ("aud", PyVal.str "aud"), ("preferred_username", PyVal.str "alice"),
       ("scp", PyVal.str "read write")], some (PyVal.int 10)⟩ ∧
    r1.2.2 + r2.2.2 = 2 ∧ ¬ r1.2.2 + r2.2.2 ≤ 1 := by
  decide

/-- C8 amended: validating the same valid token twice with no rotation or
invalidation in between yields identical claim sets, the second call is
served entirely from the cache (zero fetches, unchanged cache state), and
the two calls together trigger at most two fetches: from a cold cache the
first call performs exactly one discovery fetch plus one key-set fetch. -/
theorem C8_second_call_cached
    (s : AuthSettings) (w : World) (t : Token) (h : String)
    (kid u : String) (key : Jwk) (rs : PyVal)
    (hhdr : pyStartsWith h "Bearer " = true)
    (hkid : t.kid = some kid) (hne : ¬ kid = "")
    (hdisc : w.discStatus = 200) (huri : w.discJwksUri = some u)
    (hstatus : w.jwksStatus = 200)
    (hfind : findKey kid w.jwksKeys = some key)
    (hdecode : jwtDecode t key s.audience (expectedIssuer s.authority) w.now =
      Except.ok t.claims)
    (hroles : rolesExpr t.claims = Except.ok rs) :
    (get_current_user s w CacheState.empty h (RawToken.jwt t)).1 =
      Except.ok ⟨preferredUsername t.claims, rs, t.claims,
        claimsGet t.claims "exp"⟩ ∧
    (get_current_user s w CacheState.empty h (RawToken.jwt t)).2.2 = 2 ∧
    get_current_user s w
        (get_current_user s w CacheState.empty h (RawToken.jwt t)).2.1 h
        (RawToken.jwt t) =
      ((get_current_user s w CacheState.empty h (RawToken.jwt t)).1,
       (get_current_user s w CacheState.empty h (RawToken.jwt t)).2.1, 0) := by
  have h1 : get_current_user s w CacheState.empty h (RawToken.jwt t) =
      (Except.ok ⟨preferredUsername t.claims, rs, t.claims,
        claimsGet t.claims "exp"⟩,
       ⟨some (openidConfigUrlOf s.authority), some (some u), some w.jwksKeys⟩,
       2) := by
    simp [get_current_user, hhdr, get_signing_key, hkid, hne, get_jwks,
      get_jwks_uri, get_openid_config_url, CacheState.empty, hdisc, huri,
      hstatus, hfind, hdecode, hroles]
  rw [h1]
  simp [get_current_user, hhdr, get_signing_key, hkid, hne, get_jwks,
    hfind, hdecode, hroles]

/-- C8 witness: the cached-second-call behaviour at a concrete valid
token. -/
theorem C8_second_call_cached_witness :
    (get_current_user ⟨"https://a", "aud"⟩
        ⟨200, some "u", 200, [⟨some "k1", "mat"⟩], 0⟩ CacheState.empty
        "Bearer x" (RawToken.jwt ⟨some "k1", "RS256", "mat",
          [("exp", PyVal.int 10), ("iss", PyVal.str "https://a/v2.0"),
           ("aud", PyVal.str "aud"),
           ("preferred_username", PyVal.str "alice"),
           ("scp", PyVal.str "read write")]⟩)).1 =
      Except.ok ⟨preferredUsername
          [("exp", PyVal.int 10), ("iss", PyVal.str "https://a/v2.0"),
           ("aud", PyVal.str "aud"),
           ("preferred_username", PyVal.str "alice"),
           ("scp", PyVal.str "read write")],
        PyVal.list ["read", "write"],
        [("exp", PyVal.int 10), ("iss", PyVal.str "https://a/v2.0"),
         ("aud", PyVal.str "aud"),
         ("preferred_username", PyVal.str "alice"),
         ("scp", PyVal.str "read write")],
        claimsGet
          [("exp", PyVal.int 10), ("iss", PyVal.str "https://a/v2.0"),
           ("aud", PyVal.str "aud"),
           ("preferred_username", PyVal.str "alice"),
           ("scp", PyVal.str "read write")] "exp"⟩ ∧
    (get_current_user ⟨"https://a", "aud"⟩
        ⟨200, some "u", 200, [⟨some "k1", "mat"⟩], 0⟩ CacheState.empty
        "Bearer x" (RawToken.jwt ⟨some "k1", "RS256", "mat",
          [("exp", PyVal.int 10), ("iss", PyVal.str "https://a/v2.0"),
           ("aud", PyVal.str "aud"),
           ("preferred_username", PyVal.str "alice"),
           ("scp", PyVal.str "read write")]⟩)).2.2 = 2 ∧
    get_current_user ⟨"https://a", "aud"⟩
        ⟨200, some "u", 200, [⟨some "k1", "mat"⟩], 0⟩
        (get_current_user ⟨"https://a", "aud"⟩
          ⟨200, some "u", 200, [⟨some "k1", "mat"⟩], 0⟩ CacheState.empty
          "Bearer x" (RawToken.jwt ⟨some "k1", "RS256", "mat",
            [("exp", PyVal.int 10), ("iss", PyVal.str "https://a/v2.0"),
             ("aud", PyVal.str "aud"),
             ("preferred_username", PyVal.str "alice"),
             ("scp", PyVal.str "read write")]⟩)).2.1
        "Bearer x" (RawToken.jwt ⟨some "k1", "RS256", "mat",
          [("exp", PyVal.int 10), ("iss", PyVal.str "https://a/v2.0"),
           ("aud", PyVal.str "aud"),
           ("preferred_username", PyVal.str "alice"),
           ("scp", PyVal.str "read write")]⟩) =
      ((get_current_user ⟨"https://a", "aud"⟩
          ⟨200, some "u", 200, [⟨some "k1", "mat"⟩], 0⟩ CacheState.empty
          "Bearer x" (RawToken.jwt ⟨some "k1", "RS256", "mat",
            [("exp", PyVal.int 10), ("iss", PyVal.str "https://a/v2.0"),
             ("aud", PyVal.str "aud"),
             ("preferred_username", PyVal.str "alice"),
             ("scp", PyVal.str "read write")]⟩)).1,
       (get_current_user ⟨"https://a", "aud"⟩
          ⟨200, some "u", 200, [⟨some "k1", "mat"⟩], 0⟩ CacheState.empty
          "Bearer x" (RawToken.jwt ⟨some "k1", "RS256", "mat",
            [("exp", PyVal.int 10), ("iss", PyVal.str "https://a/v2.0"),
             ("aud", PyVal.str "aud"),
             ("preferred_username", PyVal.str "alice"),
             ("scp", PyVal.str "read write")]⟩)).2.1, 0) :=
  C8_second_call_cached ⟨"https://a", "aud"⟩
    ⟨200, some "u", 200, [⟨some "k1", "mat"⟩], 0⟩
    ⟨some "k1", "RS256", "mat",
      [("exp", PyVal.int 10), ("iss", PyVal.str "https://a/v2.0"),
       ("aud", PyVal.str "aud"), ("preferred_username", PyVal.str "alice"),
       ("scp", PyVal.str "read write")]⟩
    "Bearer x" "k1" "u" ⟨some "k1", "mat"⟩ (PyVal.list ["read", "write"])
    (by decide) rfl (by decide) rfl rfl rfl (by decide) (by decide) (by decide)

/-- The `rstrip("/")` normalisation is blind to trailing slashes. -/
theorem rstripSlash_append_slashes (a sl : String)
    (h : ∀ c ∈ sl.data, c = '/') : rstripSlash (a ++ sl) = rstripSlash a := by
  have hall : ∀ c ∈ sl.data.reverse, (c == '/') = true := by
    intro c hc
    have hc2 := h c (List.mem_reverse.mp hc)
    simp [hc2]
  unfold rstripSlash rstripSlashList
  rw [string_data_append, List.reverse_append,
    dropWhile_append_of_all _ _ _ hall]

/-- C10: both the discovery-document URL and the expected issuer are
computed from the authority with all trailing `'/'` characters removed
before appending the `/v2.0` suffix, so two authority values differing only
in trailing slashes produce identical discovery URLs and identical issuer
acceptance. -/
theorem C10_trailing_slash_normalisation
    (a s1 s2 : String)
    (h1 : ∀ c ∈ s1.data, c = '/') (h2 : ∀ c ∈ s2.data, c = '/') :
    openidConfigUrlOf (a ++ s1) = openidConfigUrlOf (a ++ s2) ∧
    expectedIssuer (a ++ s1) = expectedIssuer (a ++ s2) := by
  unfold openidConfigUrlOf expectedIssuer
  rw [rstripSlash_append_slashes a s1 h1, rstripSlash_append_slashes a s2 h2]
  exact ⟨rfl, rfl⟩

/-- C10 witness: an authority with no trailing slash and the same authority
with one trailing slash yield the same discovery URL and issuer. -/
theorem C10_trailing_slash_normalisation_witness :
    openidConfigUrlOf ("https://login.example.com/tenant" ++ "") =
      openidConfigUrlOf ("https://login.example.com/tenant" ++ "/") ∧
    expectedIssuer ("https://login.example.com/tenant" ++ "") =
      expectedIssuer ("https://login.example.com/tenant" ++ "/") :=
  C10_trailing_slash_normalisation "https://login.example.com/tenant" "" "/"
    (by decide) (by decide)

end AuthCore
